import Mathlib

/-!
Verification development for the `sct-reader` sector-file parsing library.

The Rust sources under `src/loaders/euroscope` and `src/loaders/ese` are
shallowly embedded below: every parser that mutates `&mut self` and returns a
`Result<(), Error>` becomes a Lean function returning the updated state paired
with an `Option Error` (`none` = `Ok(())`), so that mutations performed before
an error are kept, exactly as in Rust.  Machine floats (`f64`/`f32`) are
modelled by `ℚ` (the parsers only ever parse decimal text, add, and subtract).

The repository declares modules `euroscope/position.rs`, `euroscope/colour.rs`,
`euroscope/line.rs`, `euroscope/waypoint.rs`, `euroscope/sector.rs` and
`euroscope/partial/region.rs` that are not present in the source tree; the
definitions taken from those modules (the coordinate engine, position
validation, colour decoding, and the plain record types) are modelled from the
specification and marked as such in their doc comments.
-/

/- The Batteries rational-number operations are `@[irreducible]`, which stops
kernel evaluation of concrete parses; the development below settles concrete
runs by `decide`, so they must be reducible. -/
set_option allowUnsafeReducibility true in
attribute [semireducible] Rat.add Rat.mul Rat.sub Rat.div Rat.neg Rat.inv

namespace SctReader

/-! ## Character and string helpers (models of the Rust std primitives) -/

/-- Model of `char::is_whitespace` restricted to the ASCII whitespace that can
occur on a text line. -/
def isWs (c : Char) : Bool :=
  c = ' ' ∨ c = '\t' ∨ c = '\r' ∨ c = '\n'

/-- ASCII model of `char::to_lowercase` (the identifiers and colour names in
sector files are ASCII). -/
def charToLower (c : Char) : Char :=
  if 'A' ≤ c ∧ c ≤ 'Z' then Char.ofNat (c.toNat + 32) else c

/-- ASCII model of `char::to_uppercase`. -/
def charToUpper (c : Char) : Char :=
  if 'a' ≤ c ∧ c ≤ 'z' then Char.ofNat (c.toNat - 32) else c

/-- Model of `str::to_lowercase`. -/
def strToLower (s : String) : String := ⟨s.data.map charToLower⟩

/-- Model of `str::to_uppercase`. -/
def strToUpper (s : String) : String := ⟨s.data.map charToUpper⟩

/-- Model of `str::starts_with`. -/
def strStartsWith (s p : String) : Bool := p.data.isPrefixOf s.data

/-- Model of `str::trim_end` (drop trailing whitespace). -/
def trimEnd (s : String) : String := ⟨(s.data.reverse.dropWhile isWs).reverse⟩

/-- Accumulator for `wordsCL`: the current (reversed) in-progress word. -/
def wordsAux : List Char → List Char → List (List Char)
  | [], cur => if cur = [] then [] else [cur.reverse]
  | c :: cs, cur =>
      if isWs c then
        if cur = [] then wordsAux cs [] else cur.reverse :: wordsAux cs []
      else wordsAux cs (c :: cur)

/-- Model of `str::split_whitespace` (splits on whitespace, discarding empty
pieces). -/
def strWords (s : String) : List String := (wordsAux s.data []).map fun cs => ⟨cs⟩

/-- Split on a separator character, keeping empty pieces, as Rust's
`str::split(sep)` does. -/
def splitCharAux (sep : Char) : List Char → List Char → List (List Char)
  | [], cur => [cur.reverse]
  | c :: cs, cur =>
      if c = sep then cur.reverse :: splitCharAux sep cs []
      else splitCharAux sep cs (c :: cur)

/-- Model of `str::split(sep)` for a single-character separator. -/
def strSplitChar (s : String) (sep : Char) : List String :=
  (splitCharAux sep s.data []).map fun cs => ⟨cs⟩

/-- The characters of a line strictly before its first `;`
(model of `line.split(';').next().unwrap()`). -/
def takeUntilSemi (s : String) : String := ⟨s.data.takeWhile fun c => c ≠ ';'⟩

/-- Glue tokens back together with single spaces
(model of `[..].join(" ")` on a slice of whitespace-split tokens). -/
def joinSpace : List String → String
  | [] => ""
  | [x] => x
  | x :: xs => x ++ " " ++ joinSpace xs

/-! ## Numeric token parsing (models of the Rust std `FromStr` instances) -/

/-- The numeric value of an ASCII digit. -/
def digitVal (c : Char) : Option ℕ :=
  if '0' ≤ c ∧ c ≤ '9' then some (c.toNat - 48) else none

/-- Parse a nonempty all-digit character list into a natural number. -/
def parseDigitsAux : List Char → ℕ → Option ℕ
  | [], acc => some acc
  | c :: cs, acc =>
      match digitVal c with
      | some d => parseDigitsAux cs (acc * 10 + d)
      | none => none

/-- Digits-only natural number literal; fails on the empty string. -/
def parseNatCore (cs : List Char) : Option ℕ :=
  if cs = [] then none else parseDigitsAux cs 0

/-- Model of the unsigned-integer `FromStr` of Rust std: an optional leading
`+` followed by at least one digit. -/
def parseNatTok (cs : List Char) : Option ℕ :=
  match cs with
  | c :: rest => if c = '+' then parseNatCore rest else parseNatCore (c :: rest)
  | [] => none

/-- Model of `str::parse::<u8>`: value must fit in 8 bits. -/
def parseU8 (cs : List Char) : Option ℕ :=
  (parseNatTok cs).bind fun n => if n ≤ 255 then some n else none

/-- Model of `str::parse::<u16>`: value must fit in 16 bits. -/
def parseU16 (cs : List Char) : Option ℕ :=
  (parseNatTok cs).bind fun n => if n ≤ 65535 then some n else none

/-- Unsigned plain decimal literal `ddd`, `ddd.ddd`, `.ddd` or `ddd.` as an
exact rational. -/
def parseUDec (cs : List Char) : Option ℚ :=
  match splitCharAux '.' cs [] with
  | [intPart] => (parseNatCore intPart).map fun n => (mkRat n 1)
  | [intPart, fracPart] =>
      if intPart = [] ∧ fracPart = [] then none
      else
        match (if intPart = [] then some 0 else parseNatCore intPart),
              (if fracPart = [] then some 0 else parseNatCore fracPart) with
        | some i, some f => some (mkRat i 1 + mkRat f (10 ^ fracPart.length))
        | _, _ => none
  | _ => none

/-- Model of `str::parse::<f64>` / `str::parse::<f32>` restricted to the plain
decimal notation used by sector files, producing the exact rational value
(floating-point rounding is out of scope of this development). -/
def parseF64 (cs : List Char) : Option ℚ :=
  match cs with
  | '-' :: rest => (parseUDec rest).map fun q => -q
  | '+' :: rest => parseUDec rest
  | _ => parseUDec cs

/-! ## Errors (from `src/loaders/euroscope/error.rs`) -/

/-- The closed error taxonomy of the parser, one constructor per Rust
`Error` variant. -/
inductive Error
  | MissingMetadata
  | IoError
  | InvalidColourDefinition
  | InvalidFileSection
  | InvalidCoordinate
  | SectorInfoError
  | InvalidAirspaceClass
  | InvalidWaypoint
  | InvalidPosition
  | InvalidRunway
  | InvalidHeading
  | InvalidVorOrNdb
  | InvalidFix
  | InvalidArtccEntry
  | InvalidSidStarEntry
  | InvalidGeoEntry
  | InvalidRegion
  | InvalidLabel
  | InvalidOffset
  | InvalidFreetext
  | InvalidAtcPosition
  deriving DecidableEq, Repr

/-- `SectorResult<T>` from the Rust sources. -/
abbrev SectorResult (α : Type) := Except Error α

instance {ε α : Type} [DecidableEq ε] [DecidableEq α] :
    DecidableEq (Except ε α) := fun x y =>
  match x, y with
  | .ok a, .ok b =>
      if h : a = b then isTrue (by rw [h]) else isFalse (by simp [h])
  | .error a, .error b =>
      if h : a = b then isTrue (by rw [h]) else isFalse (by simp [h])
  | .ok _, .error _ => isFalse (by simp)
  | .error _, .ok _ => isFalse (by simp)

/-! ## Coordinate engine

Modelled from the spec: the module `euroscope/position.rs` is declared by
`euroscope/mod.rs` but absent from the source tree.  Spec §4.1: the engine
"parses latitude/longitude tokens in degree-minute-second text form into
signed decimal degrees" (tokens such as `N043.34.13.000`, spec §8), and
validation fails with `InvalidPosition` when a coordinate is out of
geographic range (latitude ∈ [-90,90], longitude ∈ [-180,180], spec §3). -/

/-- Modelled from the spec: `position::coord_from_es` — one
degree-minute-second token (`N043.34.13.000`) to signed decimal degrees;
`N`/`E` are positive, `S`/`W` negative. -/
def coordFromEs (s : String) : Option ℚ :=
  match s.data with
  | [] => none
  | h :: rest =>
      let sign : Option ℚ :=
        if h = 'N' ∨ h = 'E' then some 1
        else if h = 'S' ∨ h = 'W' then some (-1)
        else none
      match sign with
      | none => none
      | some sgn =>
          match splitCharAux '.' rest [] with
          | [d, m, sec, f] =>
              match parseNatCore d, parseNatCore m, parseNatCore sec,
                    parseNatCore f with
              | some dv, some mv, some sv, some fv =>
                  some (sgn * (mkRat dv 1 + mkRat mv 60 +
                    (mkRat sv 1 + mkRat fv (10 ^ f.length)) / 3600))
              | _, _, _, _ => none
          | _ => none

/-- Modelled from the spec (§3): a latitude/longitude pair.  The Rust source
distinguishes `Position<Unvalidated>` from `Position<Valid>` by a phantom
type; here both states share this record and validity is enforced by the
explicit fallible `validate` below. -/
structure Position where
  lat : ℚ
  lon : ℚ
  deriving DecidableEq, Repr

/-- Modelled from the spec: `Position::try_new_from_es` — parse the two raw
tokens, failing with `InvalidCoordinate` when either is malformed. -/
def Position.tryNewFromEs (lat lon : String) : SectorResult Position :=
  match coordFromEs lat, coordFromEs lon with
  | some la, some lo => .ok ⟨la, lo⟩
  | _, _ => .error .InvalidCoordinate

/-- Modelled from the spec: range check of `Position::validate`
(latitude ∈ [-90,90], longitude ∈ [-180,180]; `ℚ` values are always
finite). -/
def Position.validB (p : Position) : Bool :=
  -90 ≤ p.lat ∧ p.lat ≤ 90 ∧ -180 ≤ p.lon ∧ p.lon ≤ 180

/-- Modelled from the spec: `Position::validate`, the explicit fallible
transition from unvalidated to validated, failing with `InvalidPosition`. -/
def Position.validate (p : Position) : SectorResult Position :=
  if p.validB then .ok p else .error .InvalidPosition

/-! ## Position creator (from `src/loaders/euroscope/partial/mod.rs`) -/

/-- `PositionCreator`: the active planar offset, stored as the Rust array
`offset: [f64; 2]` with `offset[0]` the x (longitude) and `offset[1]` the
y (latitude) component. -/
structure PositionCreator where
  offsetX : ℚ := 0
  offsetY : ℚ := 0
  deriving DecidableEq, Repr

/-- `PositionCreator::try_new_from_es`: parse and then add the active offset
(y to the latitude, x to the longitude). -/
def PositionCreator.tryNewFromEs (pc : PositionCreator) (lat lon : String) :
    SectorResult Position :=
  (Position.tryNewFromEs lat lon).map fun pos =>
    ⟨pos.lat + pc.offsetY, pos.lon + pc.offsetX⟩

/-- `PositionCreator::set_offset`. -/
def PositionCreator.setOffset (_pc : PositionCreator) (x y : ℚ) :
    PositionCreator :=
  ⟨x, y⟩

/-! ## Colours

Modelled from the spec: the module `euroscope/colour.rs` is absent from the
source tree.  Spec §2/§4.2: a colour is an RGB triple produced from a literal
packed integer (`0xRRGGBB`, e.g. `16711680` decodes to `(255,0,0)`); parsing a
non-integer value token fails with `InvalidColourDefinition`. -/

/-- Modelled from the spec (§2): an RGB triple. -/
structure Colour where
  r : ℕ
  g : ℕ
  b : ℕ
  deriving DecidableEq, Repr

/-- Modelled from the spec: `Colour::from_str` — decode a decimal `u32`
literal as packed `0xRRGGBB`. -/
def Colour.fromStr (s : String) : SectorResult Colour :=
  match (parseNatTok s.data).bind
      (fun n => if n < 4294967296 then some n else none) with
  | some n => .ok ⟨n / 65536 % 256, n / 256 % 256, n % 256⟩
  | none => .error .InvalidColourDefinition

/-! ## Record types

The plain record types below mirror `euroscope/waypoint.rs`, `euroscope/line.rs`,
`euroscope/sector.rs` and `euroscope/partial/region.rs`, which are declared by
`euroscope/mod.rs` but absent from the source tree; they are modelled from the
spec (§3) and from their uses in `partial/mod.rs`. -/

/-- Modelled from the spec (§3): runway modifier letters. -/
inductive RunwayModifier
  | Left
  | Centre
  | Right
  | Grass
  | None
  deriving DecidableEq, Repr

/-- Airspace class rank A–G (from `euroscope/mod.rs`). -/
inductive AirspaceClass
  | A | B | C | D | E | F | G
  deriving DecidableEq, Repr

/-- Modelled from the spec (§3): a fix. -/
structure Fix where
  identifier : String
  position : Position
  deriving DecidableEq, Repr

/-- Modelled from the spec (§3): a VOR beacon. -/
structure Vor where
  identifier : String
  position : Position
  frequency : String
  deriving DecidableEq, Repr

/-- Modelled from the spec (§3): an NDB beacon. -/
structure Ndb where
  identifier : String
  position : Position
  frequency : String
  deriving DecidableEq, Repr

/-- Modelled from the spec (§3): one end of a runway strip. -/
structure RunwayEnd where
  number : ℕ
  td_threshold_pos : Position
  se_threshold_pos : Position
  modifier : RunwayModifier
  magnetic_hdg : ℚ
  deriving DecidableEq, Repr

/-- Modelled from the spec (§3): a runway strip. -/
structure RunwayStrip where
  end_a : RunwayEnd
  end_b : RunwayEnd
  deriving DecidableEq, Repr

/-- Modelled from the spec (§3): a sector-file airport record. -/
structure Airport where
  identifier : String
  position : Position
  tower_frequency : String
  airspace_class : AirspaceClass
  runways : List RunwayStrip
  deriving DecidableEq, Repr

/-- Modelled from the spec (§3): a line segment with two positions and an
optional colour (`line.rs`, `ColouredLine::new`). -/
structure ColouredLine where
  start : Position
  stop : Position
  colour : Option Colour
  deriving DecidableEq, Repr

/-- Modelled from the spec (§3): a named ordered group of segments
(`line.rs`, `LineGroup::new(name, lines)`), instantiated at `ColouredLine`. -/
structure LineGroup where
  name : String
  lines : List ColouredLine
  deriving DecidableEq, Repr

/-- Modelled from the spec (§3): one filled region, a colour plus vertex
list (`partial/region.rs`). -/
structure PartialRegion where
  colour : Option Colour
  vertices : List Position
  deriving DecidableEq, Repr

/-- Modelled from the spec (§3): a named group of regions
(`partial/region.rs`). -/
structure PartialRegionGroup where
  name : String
  regions : List PartialRegion
  deriving DecidableEq, Repr

/-- Modelled from the spec (§3): a point label (`sector.rs`). -/
structure Label where
  name : String
  position : Position
  colour : Colour
  deriving DecidableEq, Repr

/-- Modelled from the spec (§3): a named group of labels (`sector.rs`). -/
structure LabelGroup where
  name : String
  labels : List Label
  deriving DecidableEq, Repr

/-! ## Sequential metadata parser
(from `src/loaders/euroscope/partial/sector_info.rs`) -/

/-- `PartialSectorInfo`: the nine ordered metadata fields plus the private
line counter. -/
structure PartialSectorInfo where
  name : Option String := none
  default_callsign : Option String := none
  default_airport : Option String := none
  default_centre_pt_lat : Option ℚ := none
  default_centre_pt_lon : Option ℚ := none
  n_mi_per_deg_lat : Option ℚ := none
  n_mi_per_deg_lon : Option ℚ := none
  magnetic_variation : Option ℚ := none
  sector_scale : Option ℚ := none
  current_line : ℕ := 0
  deriving DecidableEq, Repr

/-- `PartialSectorInfo::parse_line`: the counter is incremented first; the new
value selects the field.  The two centre-point lines go through
`position::coord_from_es` with the active offset component added and never
fail; the four scalar lines fail with `SectorInfoError` when the value does
not parse; any line past the ninth fails with `SectorInfoError`. -/
def PartialSectorInfo.parseLine (si : PartialSectorInfo) (value : String)
    (pc : PositionCreator) : PartialSectorInfo × Option Error :=
  let n := si.current_line + 1
  let si' := { si with current_line := n }
  match n with
  | 1 => ({ si' with name := some value }, none)
  | 2 => ({ si' with default_callsign := some value }, none)
  | 3 => ({ si' with default_airport := some value }, none)
  | 4 =>
      ({ si' with default_centre_pt_lat :=
          (coordFromEs value).map fun lat => lat + pc.offsetY }, none)
  | 5 =>
      ({ si' with default_centre_pt_lon :=
          (coordFromEs value).map fun lon => lon + pc.offsetX }, none)
  | 6 =>
      match parseF64 value.data with
      | some v => ({ si' with n_mi_per_deg_lat := some v }, none)
      | none => (si', some .SectorInfoError)
  | 7 =>
      match parseF64 value.data with
      | some v => ({ si' with n_mi_per_deg_lon := some v }, none)
      | none => (si', some .SectorInfoError)
  | 8 =>
      match parseF64 value.data with
      | some v => ({ si' with magnetic_variation := some v }, none)
      | none => (si', some .SectorInfoError)
  | 9 =>
      match parseF64 value.data with
      | some v => ({ si' with sector_scale := some v }, none)
      | none => (si', some .SectorInfoError)
  | _ => (si', some .SectorInfoError)

/-! ## The partial sector and its line parsers
(from `src/loaders/euroscope/partial/mod.rs`) -/

/-- The colour table, Rust `HashMap<String, Colour>` modelled as an
association list where `insert` replaces an existing key. -/
def mapInsert : List (String × Colour) → String → Colour →
    List (String × Colour)
  | [], k, v => [(k, v)]
  | (k', v') :: rest, k, v =>
      if k' = k then (k, v) :: rest else (k', v') :: mapInsert rest k v

/-- `HashMap::get` on the association-list model. -/
def mapGet (m : List (String × Colour)) (k : String) : Option Colour :=
  (m.find? fun e => e.1 = k).map fun e => e.2

/-- `BeaconType` (from `partial/mod.rs`). -/
inductive BeaconType
  | Vor
  | Ndb
  deriving DecidableEq, Repr

/-- `ArtccOrAirwayLineType` (from `partial/mod.rs`). -/
inductive ArtccOrAirwayLineType
  | Artcc
  | ArtccHigh
  | ArtccLow
  | LowAirway
  | HighAirway
  deriving DecidableEq, Repr

/-- `SidStarType` (from `partial/mod.rs`). -/
inductive SidStarType
  | Sid
  | Star
  deriving DecidableEq, Repr

/-- `PartialSector`: the whole in-progress sector model. -/
structure PartialSector where
  colours : List (String × Colour) := []
  sector_info : PartialSectorInfo := {}
  airports : List Airport := []
  vors : List Vor := []
  ndbs : List Ndb := []
  fixes : List Fix := []
  artcc_entries : List LineGroup := []
  artcc_low_entries : List LineGroup := []
  artcc_high_entries : List LineGroup := []
  low_airways : List LineGroup := []
  high_airways : List LineGroup := []
  sid_entries : List LineGroup := []
  star_entries : List LineGroup := []
  geo_entries : List LineGroup := []
  region_groups : List PartialRegionGroup := []
  labels : List LabelGroup := []
  position_creator : PositionCreator := {}
  current_region_name : String := ""
  deriving DecidableEq, Repr

/-- `PartialSector::new`: everything defaulted except the current region name
(`"noname"`) and the initial `"SCT2"` label group. -/
def PartialSector.new : PartialSector :=
  { current_region_name := "noname",
    labels := [{ name := "SCT2", labels := [] }] }

/-- `PartialSector::try_fetch_or_decode_colour`: literal decoding first, then
a lower-cased table lookup. -/
def PartialSector.tryFetchOrDecodeColour (s : PartialSector) (value : String) :
    Option Colour :=
  match Colour.fromStr value with
  | .ok colour => some colour
  | .error _ => mapGet s.colours (strToLower value)

/-- `PartialSector::try_fetch_or_decode_lat_lon`: direct coordinate parsing
(with the active offset) first; on failure the first token is looked up as an
identifier among fixes, then VORs, then NDBs, then airports. -/
def PartialSector.tryFetchOrDecodeLatLon (s : PartialSector) (lat lon : String) :
    Option Position :=
  match s.position_creator.tryNewFromEs lat lon with
  | .ok position => some position
  | .error _ =>
      match s.fixes.find? fun fix => fix.identifier = lat with
      | some fix => some fix.position
      | none =>
          match s.vors.find? fun vor => vor.identifier = lat with
          | some vor => some vor.position
          | none =>
              match s.ndbs.find? fun ndb => ndb.identifier = lat with
              | some ndb => some ndb.position
              | none =>
                  match s.airports.find? fun ap => ap.identifier = lat with
                  | some ap => some ap.position
                  | none => none

/-- The shared body of `PartialSector::parse_offset` and
`PartialEse::parse_offset` (the two Rust methods are textually identical and
touch only the position creator).  The arithmetic here is the exact-rational
model of the source's `f64`; see `PositionCreator.parseOffsetF64` below for
the variant whose arithmetic models IEEE-754 binary64 rounding exactly. -/
def PositionCreator.parseOffset (pc : PositionCreator) (value : String) :
    PositionCreator × Option Error :=
  let sections := strWords value
  if sections.length = 3 then
    match parseF64 (sections.getD 1 "").data with
    | none => (pc, some .InvalidOffset)
    | some y =>
        match parseF64 (sections.getD 2 "").data with
        | none => (pc, some .InvalidOffset)
        | some x => (pc.setOffset x y, none)
  else if sections.length = 5 then
    match pc.tryNewFromEs (sections.getD 1 "") (sections.getD 2 "") with
    | .error e => (pc, some e)
    | .ok pos1 =>
        match pc.tryNewFromEs (sections.getD 3 "") (sections.getD 4 "") with
        | .error e => (pc, some e)
        | .ok pos2 => (pc.setOffset (pos2.lon - pos1.lon) (pos2.lat - pos1.lat), none)
  else (pc, some .InvalidOffset)

/-- `PartialSector::parse_offset`. -/
def PartialSector.parseOffset (s : PartialSector) (value : String) :
    PartialSector × Option Error :=
  let r := s.position_creator.parseOffset value
  ({ s with position_creator := r.1 }, r.2)

/-- `PartialSector::parse_colour_line`: `#define <name> <value>`; the name is
stored lower-cased; a malformed value token propagates
`InvalidColourDefinition`. -/
def PartialSector.parseColourLine (s : PartialSector) (value : String) :
    PartialSector × Option Error :=
  match strWords value with
  | _ :: nameTok :: defTok :: _ =>
      match Colour.fromStr defTok with
      | .ok colour =>
          ({ s with colours := mapInsert s.colours (strToLower nameTok) colour },
           none)
      | .error e => (s, some e)
  | _ => (s, some .InvalidColourDefinition)

/-- The storage vector selected by an `ArtccOrAirwayLineType`
(the `match line_type` in `parse_artcc_or_airway_line`). -/
def PartialSector.getStorage (s : PartialSector) :
    ArtccOrAirwayLineType → List LineGroup
  | .Artcc => s.artcc_entries
  | .ArtccLow => s.artcc_low_entries
  | .ArtccHigh => s.artcc_high_entries
  | .LowAirway => s.low_airways
  | .HighAirway => s.high_airways

/-- Writing the selected storage vector back. -/
def PartialSector.setStorage (s : PartialSector) (t : ArtccOrAirwayLineType)
    (gs : List LineGroup) : PartialSector :=
  match t with
  | .Artcc => { s with artcc_entries := gs }
  | .ArtccLow => { s with artcc_low_entries := gs }
  | .ArtccHigh => { s with artcc_high_entries := gs }
  | .LowAirway => { s with low_airways := gs }
  | .HighAirway => { s with high_airways := gs }

/-- Speculative trailing-colour handling shared by the boundary/airway and geo
parsers: resolve the last token as a colour and pop it on success. -/
def PartialSector.stripTrailingColour (s : PartialSector)
    (sections : List String) : List String × Option Colour :=
  match sections.getLast? with
  | none => (sections, none)
  | some lastTok =>
      match s.tryFetchOrDecodeColour lastTok with
      | some colour => (sections.dropLast, some colour)
      | none => (sections, none)

/-- `storage.iter_mut().find(|e| e.name == name)` as a Bool. -/
def hasGroupNamed (groups : List LineGroup) (n : String) : Bool :=
  groups.any fun g => g.name = n

/-- Push a line into the first group with the given name. -/
def pushLineNamed : List LineGroup → String → ColouredLine → List LineGroup
  | [], _, _ => []
  | g :: gs, n, l =>
      if g.name = n then { g with lines := g.lines ++ [l] } :: gs
      else g :: pushLineNamed gs n l

/-- Push a line into the last group of the collection. -/
def pushLineLast : List LineGroup → ColouredLine → List LineGroup
  | [], _ => []
  | [g], l => [{ g with lines := g.lines ++ [l] }]
  | g :: gs, l => g :: pushLineLast gs l

/-- The geometry of a boundary/airway/geo line: both resolved positions must
validate (`pos_a.validate().and_then(..).ok()`). -/
def mkLine (posA posB : Position) (colour : Option Colour) :
    Option ColouredLine :=
  match posA.validate with
  | .error _ => none
  | .ok a =>
      match posB.validate with
      | .error _ => none
      | .ok b => some ⟨a, b, colour⟩

/-- `PartialSector::parse_artcc_or_airway_line`.  The trailing token is
speculatively popped as a colour; more than 4 remaining tokens means the
leading ones form a name, exactly 4 means a continuation, fewer is an error.
Both endpoints must resolve (`InvalidArtccEntry` otherwise), the target group
is selected (existing by name / freshly pushed / last of the collection), and
the validated segment is appended; a named line whose geometry fails to
validate leaves the (possibly empty) group in place, an unnamed one fails. -/
def PartialSector.parseArtccOrAirwayLine (s : PartialSector) (value : String)
    (t : ArtccOrAirwayLineType) : PartialSector × Option Error :=
  let sc := s.stripTrailingColour (strWords value)
  let sections := sc.1
  let colour := sc.2
  match sections.drop (sections.length - 4) with
  | [tokA, tokB, tokC, tokD] =>
      let name : Option String :=
        if sections.length > 4 then
          some (joinSpace (sections.take (sections.length - 4)))
        else none
      match s.tryFetchOrDecodeLatLon tokA tokB with
      | none => (s, some .InvalidArtccEntry)
      | some posA =>
          match s.tryFetchOrDecodeLatLon tokC tokD with
          | none => (s, some .InvalidArtccEntry)
          | some posB =>
              let storage := s.getStorage t
              let line := mkLine posA posB colour
              match name with
              | some n =>
                  let storage1 :=
                    if hasGroupNamed storage n then storage
                    else storage ++ [{ name := n, lines := [] }]
                  match line with
                  | some l => (s.setStorage t (pushLineNamed storage1 n l), none)
                  | none => (s.setStorage t storage1, none)
              | none =>
                  match storage with
                  | [] => (s, some .InvalidArtccEntry)
                  | _ =>
                      match line with
                      | some l => (s.setStorage t (pushLineLast storage l), none)
                      | none => (s, some .InvalidArtccEntry)
  | _ => (s, some .InvalidArtccEntry)

/-- `PartialSector::parse_geo_line`.  Same shape as the boundary/airway
parser with three differences taken from the source: fewer than 4 tokens
still fails `InvalidArtccEntry`, resolution failures fail `InvalidGeoEntry`,
and an unnamed line facing an empty collection pushes a fresh `"DEFAULT"`
group (which survives even when the geometry then fails). -/
def PartialSector.parseGeoLine (s : PartialSector) (value : String) :
    PartialSector × Option Error :=
  let sc := s.stripTrailingColour (strWords value)
  let sections := sc.1
  let colour := sc.2
  match sections.drop (sections.length - 4) with
  | [tokA, tokB, tokC, tokD] =>
      let name : Option String :=
        if sections.length > 4 then
          some (joinSpace (sections.take (sections.length - 4)))
        else none
      match s.tryFetchOrDecodeLatLon tokA tokB with
      | none => (s, some .InvalidGeoEntry)
      | some posA =>
          match s.tryFetchOrDecodeLatLon tokC tokD with
          | none => (s, some .InvalidGeoEntry)
          | some posB =>
              let storage := s.geo_entries
              let line := mkLine posA posB colour
              match name with
              | some n =>
                  let storage1 :=
                    if hasGroupNamed storage n then storage
                    else storage ++ [{ name := n, lines := [] }]
                  match line with
                  | some l =>
                      ({ s with geo_entries := pushLineNamed storage1 n l }, none)
                  | none => ({ s with geo_entries := storage1 }, none)
              | none =>
                  let storage1 :=
                    match storage with
                    | [] => [{ name := "DEFAULT", lines := [] }]
                    | _ => storage
                  match line with
                  | some l =>
                      ({ s with geo_entries := pushLineLast storage1 l }, none)
                  | none =>
                      ({ s with geo_entries := storage1 }, some .InvalidGeoEntry)
  | _ => (s, some .InvalidArtccEntry)

/-- `regions.push(PartialRegion { colour, vertices: vec![] })` on the first
group with the given name, or a fresh group when none exists. -/
def startRegion (groups : List PartialRegionGroup) (n : String)
    (colour : Colour) : List PartialRegionGroup :=
  match groups with
  | [] => [{ name := n, regions := [{ colour := some colour, vertices := [] }] }]
  | g :: gs =>
      if g.name = n then
        { g with regions := g.regions ++ [{ colour := some colour, vertices := [] }] } :: gs
      else g :: startRegion gs n colour

/-- Append a vertex to the last region of the list; `none` when there is no
region (`regions.last_mut().ok_or(InvalidRegion)`). -/
def pushVertexRegions : List PartialRegion → Position → Option (List PartialRegion)
  | [], _ => none
  | [r], p => some [{ r with vertices := r.vertices ++ [p] }]
  | r :: rs, p => (pushVertexRegions rs p).map fun rs' => r :: rs'

/-- Append a vertex to the last region of the first group with the given
name; `none` when no such group or no region exists. -/
def pushVertex : List PartialRegionGroup → String → Position →
    Option (List PartialRegionGroup)
  | [], _, _ => none
  | g :: gs, n, p =>
      if g.name = n then
        (pushVertexRegions g.regions p).map fun rs => { g with regions := rs } :: gs
      else (pushVertex gs n p).map fun gs' => g :: gs'

/-- `PartialSector::parse_region_line`.  `REGIONNAME` sets the current-name
context; a 3-token line resolves its first token as a colour (failing
`InvalidRegion` otherwise) and starts a new region under the current name;
then, on every non-`REGIONNAME` line, the trailing two tokens are tried as a
coordinate pair and, only when they resolve *and* validate, the vertex is
appended to the last region of the current-name group (failing
`InvalidRegion` when that group or region is missing); a coordinate pair that
fails to resolve or validate is silently skipped. -/
def PartialSector.parseRegionLine (s : PartialSector) (value : String) :
    PartialSector × Option Error :=
  let sections := strWords value
  if sections.length < 2 then (s, some .InvalidRegion)
  else if sections.getD 0 "" = "REGIONNAME" then
    ({ s with current_region_name := joinSpace (sections.drop 1) }, none)
  else
    let step1 : Except Error PartialSector :=
      if sections.length = 3 then
        match s.tryFetchOrDecodeColour (sections.getD 0 "") with
        | none => .error .InvalidRegion
        | some colour =>
            .ok { s with region_groups :=
              startRegion s.region_groups s.current_region_name colour }
      else .ok s
    match step1 with
    | .error e => (s, some e)
    | .ok s1 =>
        match (s1.tryFetchOrDecodeLatLon (sections.getD (sections.length - 2) "")
            (sections.getD (sections.length - 1) "")).bind
            (fun pos => pos.validate.toOption) with
        | none => (s1, none)
        | some position =>
            match pushVertex s1.region_groups s1.current_region_name position with
            | some gs => ({ s1 with region_groups := gs }, none)
            | none => (s1, some .InvalidRegion)

/-- The `letters_to_trim` slice `['L', 'R', 'C', 'G']` of
`parse_runway_identifier`, as a membership predicate. -/
def isRunwayModChar (c : Char) : Bool :=
  c = 'L' ∨ c = 'R' ∨ c = 'C' ∨ c = 'G'

/-- `parse_runway_identifier` (free function in `partial/mod.rs`): read the
modifier off the last character, trim all trailing modifier letters, parse
the rest as a `u8`, reject values above 36 and normalize 0 to 36. -/
def parseRunwayIdentifier (value : String) : SectorResult (ℕ × RunwayModifier) :=
  let cs := value.data
  let modifier : RunwayModifier :=
    if cs.getLast? = some 'L' then .Left
    else if cs.getLast? = some 'C' then .Centre
    else if cs.getLast? = some 'R' then .Right
    else if cs.getLast? = some 'G' then .Grass
    else .None
  let trimmed := (cs.reverse.dropWhile isRunwayModChar).reverse
  match parseU8 trimmed with
  | none => .error .InvalidRunway
  | some n =>
      if n > 36 then .error .InvalidRunway
      else .ok (if n = 0 then 36 else n, modifier)

/-! ## ESE records (from `src/loaders/ese/mod.rs`) -/

/-- A free-text entry. -/
structure FreeText where
  position : Position
  text : String
  deriving DecidableEq, Repr

/-- A named group of free-text entries. -/
structure FreeTextGroup where
  name : String
  entries : List FreeText
  deriving DecidableEq, Repr

/-- `ProcedureType`. -/
inductive ProcedureType
  | SID
  | STAR
  deriving DecidableEq, Repr

/-- A SID/STAR procedure record. -/
structure Procedure where
  proc_type : ProcedureType
  identifier : String
  route : List String
  deriving DecidableEq, Repr

/-- `RunwayIdentifier`: number plus modifier. -/
structure RunwayIdentifier where
  number : ℕ
  modifier : RunwayModifier
  deriving DecidableEq, Repr

/-- The ESE airport record: identifier and the per-runway procedure map
(`HashMap<RunwayIdentifier, Vec<Procedure>>` as an association list). -/
structure EseAirport where
  identifier : String
  runways : List (RunwayIdentifier × List Procedure)
  deriving DecidableEq, Repr

/-- An ATC position record; `vis_centres` models the Rust `[Option<_>; 4]`. -/
structure AtcPosition where
  name : String
  rt_callsign : String
  radio_freq : String
  short_identifier : String
  full_identifier : String
  start_squawk : Option ℕ
  end_squawk : Option ℕ
  vis_centres : List (Option Position)
  deriving DecidableEq, Repr

/-- The finished ESE model. -/
structure Ese where
  colours : List (String × Colour)
  free_text : List FreeTextGroup
  sids_stars : List EseAirport
  non_critical_errors : List (ℕ × String × Error)
  atc_positions : List AtcPosition
  deriving DecidableEq, Repr

/-! ## The partial ESE model and its parsers
(from `src/loaders/ese/partial.rs`) -/

/-- `PartialEse`. -/
structure PartialEse where
  colours : List (String × Colour) := []
  position_creator : PositionCreator := {}
  free_text : List FreeTextGroup := []
  sids_stars : List EseAirport := []
  atc_positions : List AtcPosition := []
  deriving DecidableEq, Repr

/-- `PartialEse::parse_offset` (textually identical to
`PartialSector::parse_offset`). -/
def PartialEse.parseOffset (e : PartialEse) (value : String) :
    PartialEse × Option Error :=
  let r := e.position_creator.parseOffset value
  ({ e with position_creator := r.1 }, r.2)

/-- `PartialEse::parse_colour_line` (textually identical to
`PartialSector::parse_colour_line`). -/
def PartialEse.parseColourLine (e : PartialEse) (value : String) :
    PartialEse × Option Error :=
  match strWords value with
  | _ :: nameTok :: defTok :: _ =>
      match Colour.fromStr defTok with
      | .ok colour =>
          ({ e with colours := mapInsert e.colours (strToLower nameTok) colour },
           none)
      | .error err => (e, some err)
  | _ => (e, some .InvalidColourDefinition)

/-- Append a free-text entry to the first group with the given name, or to a
freshly pushed group when none exists. -/
def appendFreeText (groups : List FreeTextGroup) (n : String) (ft : FreeText) :
    List FreeTextGroup :=
  match groups with
  | [] => [{ name := n, entries := [ft] }]
  | g :: gs =>
      if g.name = n then { g with entries := g.entries ++ [ft] } :: gs
      else g :: appendFreeText gs n ft

/-- `PartialEse::parse_freetext_line`: colon-delimited
`lat:lon:group:text`; the position is parsed and validated (propagating its
own error kinds); a missing field fails `InvalidFreetext`; an empty group
name defaults to `"Default"`. -/
def PartialEse.parseFreetextLine (e : PartialEse) (value : String) :
    PartialEse × Option Error :=
  match strSplitChar value ':' with
  | lat :: lon :: rest =>
      match e.position_creator.tryNewFromEs lat lon with
      | .error err => (e, some err)
      | .ok pos0 =>
          match pos0.validate with
          | .error err => (e, some err)
          | .ok pos =>
              match rest with
              | groupName :: text :: _ =>
                  let groupName :=
                    if groupName = "" then "Default" else groupName
                  let entry : FreeText := { position := pos, text := text }
                  ({ e with free_text :=
                      appendFreeText e.free_text groupName entry }, none)
              | _ => (e, some .InvalidFreetext)
  | _ => (e, some .InvalidFreetext)

/-! ## The ESE reader (from `src/loaders/ese/reader.rs`) -/

/-- `FileSection`, the dispatch states of the ESE reader. -/
inductive FileSection
  | FreeText
  | SidsStars
  | Positions
  | Airspace
  | Radar
  | Ground
  deriving DecidableEq, Repr

/-- `FileSection::from_str`: upper-case the header and match it against the
known bracketed names. -/
def FileSection.fromStr (s : String) : SectorResult FileSection :=
  let u := strToUpper s
  if u = "[FREETEXT]" then .ok .FreeText
  else if u = "[SIDSSTARS]" then .ok .SidsStars
  else if u = "[POSITIONS]" then .ok .Positions
  else if u = "[AIRSPACE]" then .ok .Airspace
  else if u = "[RADAR]" then .ok .Radar
  else if u = "[GROUND]" then .ok .Ground
  else .error .InvalidFileSection

/-- The mutable state of `EseReader` during `try_read`. -/
structure EseReaderState where
  current_section : FileSection := .FreeText
  partial_ese : PartialEse := {}
  errors : List (ℕ × String × Error) := []
  deriving DecidableEq, Repr

/-- Inline-comment stripping inside `try_read`: when the trimmed line still
contains a `;`, keep only what precedes it, trimmed again. -/
def stripComment (line : String) : String :=
  if line.data.contains ';' then trimEnd (takeUntilSemi line) else line

/-- One iteration of the `try_read` loop over `(line_number, line)` where
`idx` is the 0-based enumeration index (the Rust code makes it 1-based
immediately).  Blank and `;`-comment lines are skipped; a `[` line updates
the section (an unknown header is recorded against `line_number + 1`);
`OFFSET` and `#define` lines go to the global directive parsers; otherwise
only the `FreeText` section dispatches to a content parser — every other
section falls through to `continue`.  Parser failures are recorded against
`line_number`. -/
def eseReadLine (st : EseReaderState) (idx : ℕ) (rawLine : String) :
    EseReaderState :=
  let line := trimEnd rawLine
  let lineNumber := idx + 1
  if line = "" then st
  else if strStartsWith line ";" then st
  else
    let line := stripComment line
    if strStartsWith line "[" then
      match FileSection.fromStr line with
      | .ok newSection => { st with current_section := newSection }
      | .error e =>
          { st with errors := st.errors ++ [(lineNumber + 1, line, e)] }
    else if strStartsWith line "OFFSET" then
      match st.partial_ese.parseOffset line with
      | (pe, some e) =>
          { st with partial_ese := pe,
                    errors := st.errors ++ [(lineNumber, line, e)] }
      | (pe, none) => { st with partial_ese := pe }
    else if strStartsWith line "#define" then
      match st.partial_ese.parseColourLine line with
      | (pe, some e) =>
          { st with partial_ese := pe,
                    errors := st.errors ++ [(lineNumber, line, e)] }
      | (pe, none) => { st with partial_ese := pe }
    else
      match st.current_section with
      | .FreeText =>
          match st.partial_ese.parseFreetextLine line with
          | (pe, some e) =>
              { st with partial_ese := pe,
                        errors := st.errors ++ [(lineNumber, line, e)] }
          | (pe, none) => { st with partial_ese := pe }
      | _ => st

/-- The `for (line_number, line) in lines().enumerate()` loop. -/
def eseReadLoop (st : EseReaderState) (idx : ℕ) :
    List String → EseReaderState
  | [] => st
  | l :: ls => eseReadLoop (eseReadLine st idx l) (idx + 1) ls

/-- `TryFrom<PartialEse> for Ese`: an infallible repackaging (it always
returns `Ok`). -/
def eseTryFrom (p : PartialEse) : SectorResult Ese :=
  .ok { colours := p.colours, free_text := p.free_text,
        sids_stars := p.sids_stars, atc_positions := p.atc_positions,
        non_critical_errors := [] }

/-- `EseReader::try_read` over the list of source lines: run the loop from
the initial state, convert the partial model, and store the collected
errors. -/
def eseTryRead (lines : List String) : SectorResult Ese :=
  let st := eseReadLoop {} 0 lines
  (eseTryFrom st.partial_ese).map fun ese =>
    { ese with non_critical_errors := st.errors }

/-! ## Verification-side definitions -/

/-- The canonical two-digit rendering `"00"`..`"36"` of a runway number. -/
def twoDigits (n : ℕ) : String :=
  ⟨[Char.ofNat (48 + n / 10), Char.ofNat (48 + n % 10)]⟩

/-- The five possible trailing-modifier suffixes and the modifier each one
denotes. -/
def modSuffixes : List (String × RunwayModifier) :=
  [("", RunwayModifier.None), ("L", RunwayModifier.Left),
   ("C", RunwayModifier.Centre), ("R", RunwayModifier.Right),
   ("G", RunwayModifier.Grass)]

/-- Modelled from the spec (§4.3): the already-registered entities in the
fixed priority order — fixes, then VORs, then NDBs, then airports — each
carrying its identifier and its stored (already validated, unmodified)
position. -/
def registeredEntities (s : PartialSector) : List (String × Position) :=
  (s.fixes.map fun f => (f.identifier, f.position)) ++
  (s.vors.map fun v => (v.identifier, v.position)) ++
  (s.ndbs.map fun n => (n.identifier, n.position)) ++
  (s.airports.map fun a => (a.identifier, a.position))

/-- Modelled from the spec (§4.3): `resolve_endpoint` — coordinate parsing
with the active offset first; on failure, the first case-sensitive
identifier match in the priority list, returning the stored position
unmodified. -/
def resolveEndpointSpec (s : PartialSector) (lat lon : String) :
    Option Position :=
  match s.position_creator.tryNewFromEs lat lon with
  | .ok p => some p
  | .error _ =>
      ((registeredEntities s).find? fun e => e.1 = lat).map fun e => e.2

/-- Feed a list of metadata lines to the sequential sector-info parser,
keeping the accumulated struct (test scaffolding for the spec's §8
sector-info scenario). -/
def feedSectorInfo (pc : PositionCreator) (si : PartialSectorInfo) :
    List String → PartialSectorInfo
  | [] => si
  | v :: vs => feedSectorInfo pc (si.parseLine v pc).1 vs

/-! ### An exact model of IEEE-754 binary64 arithmetic

The source stores coordinates and offsets as Rust `f64`.  The development
above models that as exact rationals, which is faithful for control flow but
not for rounding; the definitions below model the rounding itself — every
finite binary64 value is a rational, and each arithmetic operation rounds
the exact rational result to the nearest representable value (round to
nearest, ties to even, 53-bit significand; the exponent range is not
modelled because no value in this development comes near overflow or
subnormal underflow). -/

/-- Fuel-driven `⌊log₂ n⌋` on naturals (`0` for `n ≤ 1`); the fuel bounds
the bit length and 4096 covers every value occurring here. -/
def natLog2Aux : ℕ → ℕ → ℕ
  | 0, _ => 0
  | fuel + 1, n => if n ≤ 1 then 0 else natLog2Aux fuel (n / 2) + 1

/-- `⌊log₂ n⌋` (0 for `n ≤ 1`). -/
def natLog2F (n : ℕ) : ℕ := natLog2Aux 4096 n

/-- `2 ^ k` as a rational, for an integer exponent. -/
def qpow2 (k : ℤ) : ℚ :=
  if 0 ≤ k then mkRat (Int.ofNat (2 ^ k.toNat)) 1
  else mkRat 1 (2 ^ (-k).toNat)

/-- `⌊log₂ q⌋` of a positive rational, via the bit lengths of numerator and
denominator plus one comparison. -/
def ratLog2Floor (q : ℚ) : ℤ :=
  let a : ℤ := natLog2F q.num.toNat
  let b : ℤ := natLog2F q.den
  if qpow2 (a - b) ≤ q then a - b else a - b - 1

/-- Round a positive rational to the nearest value with a 53-bit
significand (round to nearest, ties to even): scale into `[2^52, 2^53)`,
round the scaled value to an integer, and scale back. -/
def f64roundPos (q : ℚ) : ℚ :=
  let e : ℤ := ratLog2Floor q - 52
  let scaled := q / qpow2 e
  let m : ℤ := scaled.num / (scaled.den : ℤ)
  let frac := scaled - mkRat m 1
  let m' : ℤ :=
    if frac < mkRat 1 2 then m
    else if mkRat 1 2 < frac then m + 1
    else if m % 2 = 0 then m else m + 1
  mkRat m' 1 * qpow2 e

/-- Round any rational to the nearest binary64 value. -/
def f64round (q : ℚ) : ℚ :=
  if q = 0 then 0 else if 0 < q then f64roundPos q else -f64roundPos (-q)

/-- binary64 addition: round the exact sum. -/
def f64add (a b : ℚ) : ℚ := f64round (a + b)

/-- binary64 subtraction: round the exact difference. -/
def f64sub (a b : ℚ) : ℚ := f64round (a - b)

/-- `PositionCreator::try_new_from_es` with its `f64` arithmetic modelled
exactly: the parsed coordinate is rounded to the nearest double (as Rust's
`f64` parser produces) and the offset components are added with binary64
addition. -/
def PositionCreator.tryNewFromEsF64 (pc : PositionCreator) (lat lon : String) :
    SectorResult Position :=
  (Position.tryNewFromEs lat lon).map fun pos =>
    ⟨f64add (f64round pos.lat) pc.offsetY, f64add (f64round pos.lon) pc.offsetX⟩

/-- `parse_offset` with its `f64` arithmetic modelled exactly: parsed direct
offsets are rounded to the nearest double, the four-coordinate form applies
the active offset with binary64 additions and takes the componentwise
binary64 differences. -/
def PositionCreator.parseOffsetF64 (pc : PositionCreator) (value : String) :
    PositionCreator × Option Error :=
  let sections := strWords value
  if sections.length = 3 then
    match parseF64 (sections.getD 1 "").data with
    | none => (pc, some .InvalidOffset)
    | some y =>
        match parseF64 (sections.getD 2 "").data with
        | none => (pc, some .InvalidOffset)
        | some x => (pc.setOffset (f64round x) (f64round y), none)
  else if sections.length = 5 then
    match pc.tryNewFromEsF64 (sections.getD 1 "") (sections.getD 2 "") with
    | .error e => (pc, some e)
    | .ok pos1 =>
        match pc.tryNewFromEsF64 (sections.getD 3 "") (sections.getD 4 "") with
        | .error e => (pc, some e)
        | .ok pos2 =>
            (pc.setOffset (f64sub pos2.lon pos1.lon) (f64sub pos2.lat pos1.lat),
             none)
  else (pc, some .InvalidOffset)

/-! ## Shared helper lemmas -/

theorem drop_name_toks (nameToks : List String) (a b c d : String) :
    (nameToks ++ [a, b, c, d]).drop ((nameToks ++ [a, b, c, d]).length - 4) =
      [a, b, c, d] := by
  have h : (nameToks ++ [a, b, c, d]).length - 4 = nameToks.length := by simp
  rw [h, List.drop_left]

theorem take_name_toks (nameToks : List String) (a b c d : String) :
    (nameToks ++ [a, b, c, d]).take ((nameToks ++ [a, b, c, d]).length - 4) =
      nameToks := by
  have h : (nameToks ++ [a, b, c, d]).length - 4 = nameToks.length := by simp
  rw [h, List.take_left]

theorem setStorage_getStorage (s : PartialSector) (t : ArtccOrAirwayLineType) :
    s.setStorage t (s.getStorage t) = s := by
  cases t <;> rfl

/-! ## Claims -/

/-- C1 counterexample: a `[POSITIONS]` content line is silently dropped by
`EseReader::try_read` — the resulting model carries neither an `AtcPosition`
record nor an error entry for it, contradicting the claim that every
Positions content line is handed to `parse_atc_position_line`. -/
theorem C1_counterexample :
    eseTryRead ["[POSITIONS]", "XXX:YYY"] = .ok ⟨[], [], [], [], []⟩ := by
  decide

/-- C1 (amended): while the current section is `Positions` or `SidsStars`,
`EseReader::try_read` skips every content line without invoking any parser
and without recording an error; the dispatch arms for those sections are
unimplemented (`_ => continue`), so the reader state is left unchanged. -/
theorem C1_positions_sidsstars_content_skipped (st : EseReaderState) (idx : ℕ)
    (rawLine : String)
    (hsec : st.current_section = FileSection.Positions ∨
      st.current_section = FileSection.SidsStars)
    (hbr : strStartsWith (stripComment (trimEnd rawLine)) "[" = false)
    (hoff : strStartsWith (stripComment (trimEnd rawLine)) "OFFSET" = false)
    (hdef : strStartsWith (stripComment (trimEnd rawLine)) "#define" = false) :
    eseReadLine st idx rawLine = st := by
  unfold eseReadLine
  by_cases h0 : trimEnd rawLine = ""
  · simp [h0]
  · by_cases h1 : strStartsWith (trimEnd rawLine) ";"
    · simp [h0, h1]
    · rcases hsec with h | h <;> simp [h0, h1, hbr, hoff, hdef, h]

/-- C1 witness: the skip theorem applied to a concrete Positions-section
line. -/
theorem C1_witness :
    eseReadLine { current_section := FileSection.Positions } 5 "ABCD:EFGH" =
      { current_section := FileSection.Positions } :=
  C1_positions_sidsstars_content_skipped
    { current_section := FileSection.Positions } 5 "ABCD:EFGH"
    (Or.inl rfl) (by decide) (by decide) (by decide)

/-- C2 counterexample: on a *named* boundary line whose endpoint tokens fail
to resolve, the parser does *not* tolerate the failure — it returns
`InvalidArtccEntry` and creates no group (the state is unchanged),
contradicting the claim that endpoint-resolution failure is tolerated on
named lines. -/
theorem C2_counterexample :
    PartialSector.new.parseArtccOrAirwayLine "TestGroup AAA BBB CCC DDD"
        ArtccOrAirwayLineType.Artcc =
      (PartialSector.new, some Error.InvalidArtccEntry) := by
  decide

/-- C2 (amended): on a named boundary/airway or geo line only
*range-validation* failure of a resolved endpoint is tolerated (the named
group is still created empty, or kept, and the parser succeeds);
*endpoint-resolution* failure (tokens neither parse as coordinates nor match
a registered entity) returns `InvalidArtccEntry` (resp. `InvalidGeoEntry`)
with no group created, on named and unnamed lines alike. -/
theorem C2_endpoint_failure_asymmetry :
    (∀ (s : PartialSector) (t : ArtccOrAirwayLineType) (value : String)
        (nameToks : List String) (a b c d : String) (col : Option Colour),
      s.stripTrailingColour (strWords value) = (nameToks ++ [a, b, c, d], col) →
      nameToks ≠ [] →
      s.tryFetchOrDecodeLatLon a b = none →
      s.parseArtccOrAirwayLine value t = (s, some Error.InvalidArtccEntry)) ∧
    (∀ (s : PartialSector) (t : ArtccOrAirwayLineType) (value : String)
        (nameToks : List String) (a b c d : String) (col : Option Colour)
        (p : Position),
      s.stripTrailingColour (strWords value) = (nameToks ++ [a, b, c, d], col) →
      nameToks ≠ [] →
      s.tryFetchOrDecodeLatLon a b = some p →
      s.tryFetchOrDecodeLatLon c d = none →
      s.parseArtccOrAirwayLine value t = (s, some Error.InvalidArtccEntry)) ∧
    (∀ (s : PartialSector) (t : ArtccOrAirwayLineType) (value : String)
        (nameToks : List String) (a b c d : String) (col : Option Colour)
        (p q : Position),
      s.stripTrailingColour (strWords value) = (nameToks ++ [a, b, c, d], col) →
      nameToks ≠ [] →
      s.tryFetchOrDecodeLatLon a b = some p →
      s.tryFetchOrDecodeLatLon c d = some q →
      mkLine p q col = none →
      hasGroupNamed (s.getStorage t) (joinSpace nameToks) = false →
      s.parseArtccOrAirwayLine value t =
        (s.setStorage t
          (s.getStorage t ++ [{ name := joinSpace nameToks, lines := [] }]),
         none)) ∧
    (∀ (s : PartialSector) (t : ArtccOrAirwayLineType) (value : String)
        (nameToks : List String) (a b c d : String) (col : Option Colour)
        (p q : Position),
      s.stripTrailingColour (strWords value) = (nameToks ++ [a, b, c, d], col) →
      nameToks ≠ [] →
      s.tryFetchOrDecodeLatLon a b = some p →
      s.tryFetchOrDecodeLatLon c d = some q →
      mkLine p q col = none →
      hasGroupNamed (s.getStorage t) (joinSpace nameToks) = true →
      s.parseArtccOrAirwayLine value t = (s, none)) ∧
    (∀ (s : PartialSector) (t : ArtccOrAirwayLineType) (value : String)
        (a b c d : String) (col : Option Colour),
      s.stripTrailingColour (strWords value) = ([a, b, c, d], col) →
      s.tryFetchOrDecodeLatLon a b = none →
      s.parseArtccOrAirwayLine value t = (s, some Error.InvalidArtccEntry)) ∧
    (∀ (s : PartialSector) (value : String) (nameToks : List String)
        (a b c d : String) (col : Option Colour),
      s.stripTrailingColour (strWords value) = (nameToks ++ [a, b, c, d], col) →
      nameToks ≠ [] →
      s.tryFetchOrDecodeLatLon a b = none →
      s.parseGeoLine value = (s, some Error.InvalidGeoEntry)) ∧
    (∀ (s : PartialSector) (value : String) (nameToks : List String)
        (a b c d : String) (col : Option Colour) (p q : Position),
      s.stripTrailingColour (strWords value) = (nameToks ++ [a, b, c, d], col) →
      nameToks ≠ [] →
      s.tryFetchOrDecodeLatLon a b = some p →
      s.tryFetchOrDecodeLatLon c d = some q →
      mkLine p q col = none →
      hasGroupNamed s.geo_entries (joinSpace nameToks) = false →
      s.parseGeoLine value =
        ({ s with geo_entries :=
            s.geo_entries ++ [{ name := joinSpace nameToks, lines := [] }] },
         none)) ∧
    (∀ (s : PartialSector) (value : String) (a b c d : String)
        (col : Option Colour),
      s.stripTrailingColour (strWords value) = ([a, b, c, d], col) →
      s.tryFetchOrDecodeLatLon a b = none →
      s.parseGeoLine value = (s, some Error.InvalidGeoEntry)) := by
  refine ⟨?_, ?_, ?_, ?_, ?_, ?_, ?_, ?_⟩
  · intro s t value nameToks a b c d col hstrip _hne hA
    simp [PartialSector.parseArtccOrAirwayLine, hstrip, drop_name_toks, hA]
  · intro s t value nameToks a b c d col p hstrip _hne hA hB
    simp [PartialSector.parseArtccOrAirwayLine, hstrip, drop_name_toks, hA, hB]
  · intro s t value nameToks a b c d col p q hstrip hne hA hB hline hno
    simp [PartialSector.parseArtccOrAirwayLine, hstrip, drop_name_toks,
      take_name_toks, hA, hB, hline, hno, List.length_pos.mpr hne]
  · intro s t value nameToks a b c d col p q hstrip hne hA hB hline hyes
    simp [PartialSector.parseArtccOrAirwayLine, hstrip, drop_name_toks,
      take_name_toks, hA, hB, hline, hyes, List.length_pos.mpr hne,
      setStorage_getStorage]
  · intro s t value a b c d col hstrip hA
    simp [PartialSector.parseArtccOrAirwayLine, hstrip, hA]
  · intro s value nameToks a b c d col hstrip _hne hA
    simp [PartialSector.parseGeoLine, hstrip, drop_name_toks, hA]
  · intro s value nameToks a b c d col p q hstrip hne hA hB hline hno
    simp [PartialSector.parseGeoLine, hstrip, drop_name_toks,
      take_name_toks, hA, hB, hline, hno, List.length_pos.mpr hne]
  · intro s value a b c d col hstrip hA
    simp [PartialSector.parseGeoLine, hstrip, hA]

/-- C2 witness: the asymmetry theorem applied at concrete lines — a named
boundary line with unresolvable endpoints fails with no group; a named line
with out-of-range (but resolvable) endpoints succeeds and registers the
empty group; an unnamed geo line with unresolvable endpoints fails. -/
theorem C2_witness :
    PartialSector.new.parseArtccOrAirwayLine "TestGroup AAA BBB CCC DDD"
        ArtccOrAirwayLineType.ArtccLow =
      (PartialSector.new, some Error.InvalidArtccEntry) ∧
    PartialSector.new.parseArtccOrAirwayLine
        "TestGroup N095.00.00.000 E008.00.00.000 N044.00.00.000 E009.00.00.000"
        ArtccOrAirwayLineType.Artcc =
      (PartialSector.new.setStorage ArtccOrAirwayLineType.Artcc
        (PartialSector.new.getStorage ArtccOrAirwayLineType.Artcc ++
          [{ name := joinSpace ["TestGroup"], lines := [] }]), none) ∧
    PartialSector.new.parseGeoLine "AAA BBB CCC DDD" =
      (PartialSector.new, some Error.InvalidGeoEntry) := by
  refine ⟨?_, ?_, ?_⟩
  · exact C2_endpoint_failure_asymmetry.1 PartialSector.new
      ArtccOrAirwayLineType.ArtccLow "TestGroup AAA BBB CCC DDD"
      ["TestGroup"] "AAA" "BBB" "CCC" "DDD" none (by decide) (by decide)
      (by decide)
  · exact C2_endpoint_failure_asymmetry.2.2.1 PartialSector.new
      ArtccOrAirwayLineType.Artcc
      "TestGroup N095.00.00.000 E008.00.00.000 N044.00.00.000 E009.00.00.000"
      ["TestGroup"] "N095.00.00.000" "E008.00.00.000" "N044.00.00.000"
      "E009.00.00.000" none ⟨95, 8⟩ ⟨44, 9⟩ (by decide) (by decide)
      (by decide) (by decide) (by decide) (by decide)
  · exact C2_endpoint_failure_asymmetry.2.2.2.2.2.2.2 PartialSector.new
      "AAA BBB CCC DDD" "AAA" "BBB" "CCC" "DDD" none (by decide) (by decide)

/-- C3: evaluating `EseReader::try_read` at its failing input — a file whose
first physical line is the unknown header `[UNKNOWN]` — shows the error
recorded against line number 2: the push site adds 1 to the already 1-based
line number, so every `InvalidFileSection` record is off by one, against the
spec's 1-based contract that every other push site follows. -/
theorem C3_header_error_off_by_one :
    eseTryRead ["[UNKNOWN]"] =
      .ok ⟨[], [], [], [(2, "[UNKNOWN]", Error.InvalidFileSection)], []⟩ := by
  decide

/-- C4 counterexample: an unnamed geo line arriving on an empty geo
collection does *not* fail — it creates a group literally named `"DEFAULT"`
and appends the segment to it, contradicting the claim that every such line
fails with the kind's invalid-entry error and adds nothing. -/
theorem C4_counterexample :
    PartialSector.new.parseGeoLine
        "N043.00.00.000 E008.00.00.000 N044.00.00.000 E009.00.00.000" =
      ({ PartialSector.new with geo_entries :=
          [{ name := "DEFAULT",
             lines := [{ start := ⟨43, 8⟩, stop := ⟨44, 9⟩, colour := none }] }] },
       none) := by
  decide

/-- C4 (amended): an unnamed boundary/airway line facing an empty collection
fails with `InvalidArtccEntry` and adds nothing; an unnamed *geo* line facing
an empty collection instead pushes a fresh group named `"DEFAULT"` — the
segment goes into it when the geometry validates, and otherwise
`InvalidGeoEntry` is returned with the empty `"DEFAULT"` group retained
(unless endpoint resolution already failed, in which case nothing is
added). -/
theorem C4_unnamed_empty_collection :
    (∀ (s : PartialSector) (t : ArtccOrAirwayLineType) (value : String)
        (a b c d : String) (col : Option Colour),
      s.stripTrailingColour (strWords value) = ([a, b, c, d], col) →
      s.getStorage t = [] →
      s.parseArtccOrAirwayLine value t = (s, some Error.InvalidArtccEntry)) ∧
    (∀ (s : PartialSector) (value : String) (a b c d : String)
        (col : Option Colour) (p q : Position) (l : ColouredLine),
      s.stripTrailingColour (strWords value) = ([a, b, c, d], col) →
      s.geo_entries = [] →
      s.tryFetchOrDecodeLatLon a b = some p →
      s.tryFetchOrDecodeLatLon c d = some q →
      mkLine p q col = some l →
      s.parseGeoLine value =
        ({ s with geo_entries := [{ name := "DEFAULT", lines := [l] }] }, none)) ∧
    (∀ (s : PartialSector) (value : String) (a b c d : String)
        (col : Option Colour) (p q : Position),
      s.stripTrailingColour (strWords value) = ([a, b, c, d], col) →
      s.geo_entries = [] →
      s.tryFetchOrDecodeLatLon a b = some p →
      s.tryFetchOrDecodeLatLon c d = some q →
      mkLine p q col = none →
      s.parseGeoLine value =
        ({ s with geo_entries := [{ name := "DEFAULT", lines := [] }] },
         some Error.InvalidGeoEntry)) ∧
    (∀ (s : PartialSector) (value : String) (a b c d : String)
        (col : Option Colour),
      s.stripTrailingColour (strWords value) = ([a, b, c, d], col) →
      s.tryFetchOrDecodeLatLon a b = none →
      s.parseGeoLine value = (s, some Error.InvalidGeoEntry)) := by
  refine ⟨?_, ?_, ?_, ?_⟩
  · intro s t value a b c d col hstrip hstore
    rcases hA : s.tryFetchOrDecodeLatLon a b with _ | posA
    · simp [PartialSector.parseArtccOrAirwayLine, hstrip, hA]
    · rcases hB : s.tryFetchOrDecodeLatLon c d with _ | posB
      · simp [PartialSector.parseArtccOrAirwayLine, hstrip, hA, hB]
      · simp [PartialSector.parseArtccOrAirwayLine, hstrip, hA, hB, hstore]
  · intro s value a b c d col p q l hstrip hstore hA hB hline
    simp [PartialSector.parseGeoLine, hstrip, hA, hB, hline, hstore,
      pushLineLast]
  · intro s value a b c d col p q hstrip hstore hA hB hline
    simp [PartialSector.parseGeoLine, hstrip, hA, hB, hline, hstore]
  · intro s value a b c d col hstrip hA
    simp [PartialSector.parseGeoLine, hstrip, hA]

/-- C4 witness: the theorem applied at concrete unnamed lines on the fresh
(empty) sector. -/
theorem C4_witness :
    PartialSector.new.parseArtccOrAirwayLine
        "N043.00.00.000 E008.00.00.000 N044.00.00.000 E009.00.00.000"
        ArtccOrAirwayLineType.HighAirway =
      (PartialSector.new, some Error.InvalidArtccEntry) ∧
    PartialSector.new.parseGeoLine
        "N043.00.00.000 E008.00.00.000 N044.00.00.000 E009.00.00.000" =
      ({ PartialSector.new with geo_entries :=
          [{ name := "DEFAULT",
             lines := [{ start := ⟨43, 8⟩, stop := ⟨44, 9⟩, colour := none }] }] },
       none) := by
  refine ⟨?_, ?_⟩
  · exact C4_unnamed_empty_collection.1 PartialSector.new
      ArtccOrAirwayLineType.HighAirway
      "N043.00.00.000 E008.00.00.000 N044.00.00.000 E009.00.00.000"
      "N043.00.00.000" "E008.00.00.000" "N044.00.00.000" "E009.00.00.000"
      none (by decide) (by decide)
  · exact C4_unnamed_empty_collection.2.1 PartialSector.new
      "N043.00.00.000 E008.00.00.000 N044.00.00.000 E009.00.00.000"
      "N043.00.00.000" "E008.00.00.000" "N044.00.00.000" "E009.00.00.000"
      none ⟨43, 8⟩ ⟨44, 9⟩
      { start := ⟨43, 8⟩, stop := ⟨44, 9⟩, colour := none }
      (by decide) (by decide) (by decide) (by decide) (by decide)

/-- C5 counterexample: a region-section coordinate line whose two tokens are
malformed (they neither parse as a coordinate pair nor resolve to any
registered entity) does *not* fail `InvalidRegion` — the parser silently
succeeds and changes nothing, contradicting the claim that malformed tokens
always fail. -/
theorem C5_counterexample :
    PartialSector.new.parseRegionLine "AAA BBB" = (PartialSector.new, none) := by
  decide

/-- C5 (amended): `parse_region_line` fails `InvalidRegion` exactly when the
line has fewer than 2 tokens, when a 3-token line's first token does not
resolve as a colour, or when the trailing tokens *do* resolve and validate
as a position but no region group with the current name (or no region in it)
exists; a vertex line whose trailing tokens fail to resolve or validate is
silently accepted with no vertex appended; otherwise `REGIONNAME` sets the
context, a 3-token colour line starts a region, and a resolving, validating
coordinate line appends a vertex under the current region name. -/
theorem C5_region_line_failure_conditions :
    (∀ (s : PartialSector) (value : String),
      (strWords value).length < 2 →
      s.parseRegionLine value = (s, some Error.InvalidRegion)) ∧
    (∀ (s : PartialSector) (value : String) (rest : List String),
      strWords value = "REGIONNAME" :: rest →
      rest ≠ [] →
      s.parseRegionLine value =
        ({ s with current_region_name := joinSpace rest }, none)) ∧
    (∀ (s : PartialSector) (value : String) (x a b : String),
      strWords value = [x, a, b] →
      x ≠ "REGIONNAME" →
      s.tryFetchOrDecodeColour x = none →
      s.parseRegionLine value = (s, some Error.InvalidRegion)) ∧
    (∀ (s : PartialSector) (value : String) (a b : String) (p : Position),
      strWords value = [a, b] →
      a ≠ "REGIONNAME" →
      (s.tryFetchOrDecodeLatLon a b).bind (fun pos => pos.validate.toOption) =
        some p →
      pushVertex s.region_groups s.current_region_name p = none →
      s.parseRegionLine value = (s, some Error.InvalidRegion)) ∧
    (∀ (s : PartialSector) (value : String) (a b : String),
      strWords value = [a, b] →
      a ≠ "REGIONNAME" →
      (s.tryFetchOrDecodeLatLon a b).bind (fun pos => pos.validate.toOption) =
        none →
      s.parseRegionLine value = (s, none)) ∧
    (∀ (s : PartialSector) (value : String) (a b : String) (p : Position)
        (gs : List PartialRegionGroup),
      strWords value = [a, b] →
      a ≠ "REGIONNAME" →
      (s.tryFetchOrDecodeLatLon a b).bind (fun pos => pos.validate.toOption) =
        some p →
      pushVertex s.region_groups s.current_region_name p = some gs →
      s.parseRegionLine value = ({ s with region_groups := gs }, none)) := by
  refine ⟨?_, ?_, ?_, ?_, ?_, ?_⟩
  · intro s value hlen
    simp [PartialSector.parseRegionLine, hlen]
  · intro s value rest hsplit hne
    have hlen : ¬ ("REGIONNAME" :: rest).length < 2 := by
      have := List.length_pos.mpr hne
      simp [List.length_cons]
      omega
    simp [PartialSector.parseRegionLine, hsplit, hlen]
    exact List.length_pos.mpr hne
  · intro s value x a b hsplit hx hcol
    simp [PartialSector.parseRegionLine, hsplit, hx, hcol]
  · intro s value a b p hsplit ha hbind hpush
    simp [PartialSector.parseRegionLine, hsplit, ha, hbind, hpush]
  · intro s value a b hsplit ha hbind
    simp [PartialSector.parseRegionLine, hsplit, ha, hbind]
  · intro s value a b p gs hsplit ha hbind hpush
    simp [PartialSector.parseRegionLine, hsplit, ha, hbind, hpush]

/-- C5 witness: the failure-condition theorem applied at concrete region
lines — a `REGIONNAME` directive, a 3-token line with an unresolvable
colour, a valid coordinate pair with no region started yet, a silently
skipped malformed pair, and a successful vertex append. -/
theorem C5_witness :
    PartialSector.new.parseRegionLine "REGIONNAME Lake Alpha" =
      ({ PartialSector.new with current_region_name := "Lake Alpha" }, none) ∧
    PartialSector.new.parseRegionLine "XYZ AAA BBB" =
      (PartialSector.new, some Error.InvalidRegion) ∧
    PartialSector.new.parseRegionLine "N010.00.00.000 E020.00.00.000" =
      (PartialSector.new, some Error.InvalidRegion) ∧
    PartialSector.new.parseRegionLine "XXX YYY" = (PartialSector.new, none) ∧
    ({ PartialSector.new with region_groups :=
        [{ name := "noname",
           regions := [{ colour := none, vertices := [] }] }] } :
        PartialSector).parseRegionLine "N010.00.00.000 E020.00.00.000" =
      ({ PartialSector.new with region_groups :=
          [{ name := "noname",
             regions := [{ colour := none, vertices := [⟨10, 20⟩] }] }] },
       none) := by
  refine ⟨?_, ?_, ?_, ?_, ?_⟩
  · exact C5_region_line_failure_conditions.2.1 PartialSector.new
      "REGIONNAME Lake Alpha" ["Lake", "Alpha"] (by decide) (by decide)
  · exact C5_region_line_failure_conditions.2.2.1 PartialSector.new
      "XYZ AAA BBB" "XYZ" "AAA" "BBB" (by decide) (by decide) (by decide)
  · exact C5_region_line_failure_conditions.2.2.2.1 PartialSector.new
      "N010.00.00.000 E020.00.00.000" "N010.00.00.000" "E020.00.00.000"
      ⟨10, 20⟩ (by decide) (by decide) (by decide) (by decide)
  · exact C5_region_line_failure_conditions.2.2.2.2.1 PartialSector.new
      "XXX YYY" "XXX" "YYY" (by decide) (by decide) (by decide)
  · exact C5_region_line_failure_conditions.2.2.2.2.2
      { PartialSector.new with region_groups :=
        [{ name := "noname", regions := [{ colour := none, vertices := [] }] }] }
      "N010.00.00.000 E020.00.00.000" "N010.00.00.000" "E020.00.00.000"
      ⟨10, 20⟩
      [{ name := "noname", regions := [{ colour := none, vertices := [⟨10, 20⟩] }] }]
      (by decide) (by decide) (by decide) (by decide)

/-- Helper for C10: a 3-token colour line on a sector whose region collection
is still empty starts a region group under the current region name and
succeeds (the vertex list depends on whether the line's coordinate pair
resolves and validates). -/
theorem parseRegion_colour_start (s : PartialSector) (value x a b : String)
    (col : Colour)
    (hsplit : strWords value = [x, a, b])
    (hx : x ≠ "REGIONNAME")
    (hcol : s.tryFetchOrDecodeColour x = some col)
    (hrg : s.region_groups = []) :
    ∃ verts, s.parseRegionLine value =
      ({ s with region_groups :=
          [{ name := s.current_region_name,
             regions := [{ colour := some col, vertices := verts }] }] },
       none) := by
  unfold PartialSector.parseRegionLine
  simp only [hsplit, hx, hcol, hrg, startRegion, List.length_cons,
    List.length_nil, List.getD_cons_zero, List.getD_cons_succ]
  norm_num
  split
  · exact ⟨[], rfl⟩
  · rename_i p heq
    refine ⟨[p], ?_⟩
    simp [pushVertex, pushVertexRegions]

/-- C10: `PartialSector::new` initialises the current region name to
`"noname"`, so a colour-plus-coordinate region line arriving before any
`REGIONNAME` directive does not fail: it creates a region group literally
named `"noname"` and `parse_region_line` returns success. -/
theorem C10_noname_region_group :
    PartialSector.new.current_region_name = "noname" ∧
    (∀ (value x a b : String) (col : Colour),
      strWords value = [x, a, b] →
      x ≠ "REGIONNAME" →
      PartialSector.new.tryFetchOrDecodeColour x = some col →
      ∃ verts, PartialSector.new.parseRegionLine value =
        ({ PartialSector.new with region_groups :=
            [{ name := "noname",
               regions := [{ colour := some col, vertices := verts }] }] },
         none)) := by
  refine ⟨rfl, ?_⟩
  intro value x a b col hsplit hx hcol
  exact parseRegion_colour_start PartialSector.new value x a b col hsplit hx
    hcol rfl

/-- C10 witness: the theorem applied to a concrete colour-plus-coordinates
line on the fresh sector. -/
theorem C10_witness :
    ∃ verts, PartialSector.new.parseRegionLine
        "255 N010.00.00.000 E020.00.00.000" =
      ({ PartialSector.new with region_groups :=
          [{ name := "noname",
             regions := [{ colour := some ⟨0, 0, 255⟩, vertices := verts }] }] },
       none) :=
  C10_noname_region_group.2 "255 N010.00.00.000 E020.00.00.000" "255"
    "N010.00.00.000" "E020.00.00.000" ⟨0, 0, 255⟩ (by decide) (by decide)
    (by decide)

/-! ## Runway-identifier normalization (claim C6) -/

theorem digitVal_not_mod (c : Char) (d : ℕ) (h : digitVal c = some d) :
    isRunwayModChar c = false := by
  unfold digitVal at h
  by_cases hc : '0' ≤ c ∧ c ≤ '9'
  · unfold isRunwayModChar
    rcases hc with ⟨h1, h2⟩
    simp only [decide_eq_false_iff_not]
    rintro (rfl | rfl | rfl | rfl) <;> revert h1 h2 <;> decide
  · simp [hc] at h

theorem parseDigitsAux_digits (cs : List Char) (acc n : ℕ)
    (h : parseDigitsAux cs acc = some n) :
    ∀ c ∈ cs, ∃ d, digitVal c = some d := by
  induction cs generalizing acc with
  | nil => intro c hc; cases hc
  | cons c0 rest ih =>
      intro c hc
      unfold parseDigitsAux at h
      rcases hd : digitVal c0 with _ | d
      · rw [hd] at h; cases h
      · rw [hd] at h
        rw [List.mem_cons] at hc
        rcases hc with rfl | hmem
        · exact ⟨d, hd⟩
        · exact ih _ h c hmem

theorem parseNatCore_no_mod (l : List Char) (n : ℕ)
    (h : parseNatCore l = some n) :
    ∀ c ∈ l, isRunwayModChar c = false := by
  intro c hc
  unfold parseNatCore at h
  split at h
  · cases h
  · obtain ⟨d, hd⟩ := parseDigitsAux_digits l 0 n h c hc
    exact digitVal_not_mod c d hd

theorem parseNatTok_no_mod (cs : List Char) (n : ℕ)
    (h : parseNatTok cs = some n) :
    ∀ c ∈ cs, isRunwayModChar c = false := by
  rcases cs with _ | ⟨c0, rest⟩
  · intro c hc; cases hc
  · simp only [parseNatTok] at h
    by_cases h0 : c0 = '+'
    · subst h0
      rw [if_pos rfl] at h
      intro c hc
      rw [List.mem_cons] at hc
      rcases hc with rfl | hmem
      · decide
      · exact parseNatCore_no_mod rest n h c hmem
    · rw [if_neg h0] at h
      exact parseNatCore_no_mod (c0 :: rest) n h

theorem dropWhile_all_true (p : Char → Bool) :
    ∀ (l1 l2 : List Char), (∀ c ∈ l1, p c = true) →
      List.dropWhile p (l1 ++ l2) = List.dropWhile p l2 := by
  intro l1 l2 h
  induction l1 with
  | nil => rfl
  | cons c rest ih =>
      have hc : p c = true := h c (List.mem_cons_self c rest)
      simp only [List.cons_append, List.dropWhile_cons, hc, if_true]
      exact ih fun c hm => h c (List.mem_cons_of_mem _ hm)

theorem dropWhile_none (p : Char → Bool) (l : List Char)
    (h : ∀ c ∈ l, p c = false) : List.dropWhile p l = l := by
  cases l with
  | nil => rfl
  | cons c rest =>
      have hc : p c = false := h c (List.mem_cons_self c rest)
      simp [List.dropWhile_cons, hc]

/-- C6: for every runway token whose numeric part is `"00"`..`"36"` and
whose optional trailing letter is one of the five modifier suffixes,
`parse_runway_identifier` returns the number in `[1,36]` (0 normalized to
36) paired with the modifier the letter denotes; and every token whose
numeric part parses as a `u8` greater than 36 fails `InvalidRunway`. -/
theorem C6_runway_identifier_normalization :
    (∀ n, n < 37 → ∀ suf ∈ modSuffixes,
      parseRunwayIdentifier (twoDigits n ++ suf.1) =
        .ok (if n = 0 then 36 else n, suf.2)) ∧
    (∀ (s : String) (n : ℕ), ∀ suf ∈ modSuffixes,
      parseU8 s.data = some n → 36 < n →
      parseRunwayIdentifier (s ++ suf.1) = .error Error.InvalidRunway) := by
  constructor
  · decide
  · intro s n suf hsuf hparse hgt
    have hnt : parseNatTok s.data = some n := by
      unfold parseU8 at hparse
      rcases hpt : parseNatTok s.data with _ | m
      · rw [hpt] at hparse; cases hparse
      · rw [hpt] at hparse
        rw [Option.some_bind] at hparse
        split at hparse
        · cases hparse; rfl
        · cases hparse
    have hno : ∀ c ∈ s.data, isRunwayModChar c = false :=
      parseNatTok_no_mod s.data n hnt
    have hsufmods : ∀ c ∈ suf.1.data, isRunwayModChar c = true := by
      simp only [modSuffixes, List.mem_cons, List.mem_singleton] at hsuf
      rcases hsuf with rfl | rfl | rfl | rfl | rfl | h
      all_goals first | decide | cases h
    have hd : (s ++ suf.1).data = s.data ++ suf.1.data := rfl
    have htrim : ((s.data ++ suf.1.data).reverse.dropWhile isRunwayModChar).reverse
        = s.data := by
      rw [List.reverse_append]
      rw [dropWhile_all_true isRunwayModChar suf.1.data.reverse s.data.reverse
        (fun c hc => hsufmods c (List.mem_reverse.mp hc))]
      rw [dropWhile_none isRunwayModChar s.data.reverse
        (fun c hc => hno c (List.mem_reverse.mp hc))]
      exact List.reverse_reverse s.data
    unfold parseRunwayIdentifier
    simp only [hd, htrim, hparse]
    rw [if_pos hgt]

/-- C6 witness: the normalization theorem at `"09L"`, at `"00"` (the 0→36
case), and the overflow part at `"37G"`. -/
theorem C6_witness :
    parseRunwayIdentifier (twoDigits 9 ++ "L") =
      .ok (9, RunwayModifier.Left) ∧
    parseRunwayIdentifier (twoDigits 0 ++ "") =
      .ok (36, RunwayModifier.None) ∧
    parseRunwayIdentifier ("37" ++ "G") = .error Error.InvalidRunway := by
  refine ⟨?_, ?_, ?_⟩
  · exact C6_runway_identifier_normalization.1 9 (by decide)
      ("L", RunwayModifier.Left) (by decide)
  · exact C6_runway_identifier_normalization.1 0 (by decide)
      ("", RunwayModifier.None) (by decide)
  · exact C6_runway_identifier_normalization.2 "37" 37
      ("G", RunwayModifier.Grass) (by decide) (by decide) (by decide)

/-- C7: `try_fetch_or_decode_lat_lon` coincides with the spec's resolver —
offset-applied coordinate parsing first and, if and only if that fails, the
stored position of the first case-sensitive match searching fixes, then
VORs, then NDBs, then airports, with no offset applied to the stored
position; `none` when neither path succeeds. -/
theorem C7_endpoint_resolution_order (s : PartialSector) (lat lon : String) :
    s.tryFetchOrDecodeLatLon lat lon = resolveEndpointSpec s lat lon := by
  unfold PartialSector.tryFetchOrDecodeLatLon resolveEndpointSpec
  cases hp : s.position_creator.tryNewFromEs lat lon with
  | ok p => simp
  | error e =>
      simp only [registeredEntities, List.find?_append, List.find?_map,
        Function.comp_def]
      rcases h1 : s.fixes.find? (fun f => f.identifier = lat) with _ | f
      · rcases h2 : s.vors.find? (fun v => v.identifier = lat) with _ | v
        · rcases h3 : s.ndbs.find? (fun n => n.identifier = lat) with _ | n
          · rcases h4 : s.airports.find? (fun a => a.identifier = lat) with _ | a
            · simp [h1, h2, h3, h4]
            · simp [h1, h2, h3, h4]
          · simp [h1, h2, h3]
        · simp [h1, h2]
      · simp [h1]

set_option maxRecDepth 100000 in
/-- C8 counterexample: in the program's `f64` arithmetic — modelled exactly
by `parseOffsetF64` — the four-coordinate `OFFSET` form is *not* independent
of the offset active before the directive: after
`OFFSET 10000000000000000 10000000000000000` (prior offset `1e16`), the
four-coordinate form with `P1 = (10, 20)`, `P2 = (10.5, 20.5)` yields
`dx = dy = 0`, because `10 + 1e16` and `10.5 + 1e16` round to the same
double (the spacing of doubles near `1e16` is 2), while the direct form
`dy = dx = 0.5` applied from the very same state yields `dx = dy = 1/2`. -/
theorem C8_counterexample :
    ((PositionCreator.parseOffsetF64 {}
        "OFFSET 10000000000000000 10000000000000000").1.parseOffsetF64
        "OFFSET N010.00.00.000 E020.00.00.000 N010.30.00.000 E020.30.00.000").1 =
      { offsetX := 0, offsetY := 0 } ∧
    ((PositionCreator.parseOffsetF64 {}
        "OFFSET 10000000000000000 10000000000000000").1.parseOffsetF64
        "OFFSET 0.5 0.5").1 =
      { offsetX := 1/2, offsetY := 1/2 } := by
  constructor <;> decide

set_option maxRecDepth 100000 in
/-- C8 (amended): in *exact arithmetic* the four-coordinate `OFFSET` form
sets the offset to the vector between the two raw parsed points — the
active offset is added to both points and cancels in the subtraction, so
the resulting state is that of the direct two-argument form with
`dy = lat2 − lat1`, `dx = lon2 − lon1`, independent of the offset active
before the directive (the first two conjuncts, over the exact-rational
model).  In the program's `f64` arithmetic this independence fails for
large prior offsets (see the counterexample); the two forms do agree
whenever the offset additions incur no rounding — in particular from the
default zero offset, where `P1 = (10, 20)`, `P2 = (10.5, 20.5)` yields
`dx = dy = 1/2` under both forms even with binary64 rounding modelled
exactly (the last two conjuncts).  The ESE parser's `parse_offset` agrees
with the sector one, and an argument count other than 2 or 4 fails
`InvalidOffset`. -/
theorem C8_offset_two_point_form :
    (∀ (s : PartialSector) (value : String)
        (w lat1 lon1 lat2 lon2 : String) (p1 p2 : Position),
      strWords value = [w, lat1, lon1, lat2, lon2] →
      Position.tryNewFromEs lat1 lon1 = .ok p1 →
      Position.tryNewFromEs lat2 lon2 = .ok p2 →
      s.parseOffset value =
        ({ s with position_creator :=
            { offsetX := p2.lon - p1.lon, offsetY := p2.lat - p1.lat } },
         none)) ∧
    (∀ (s : PartialSector) (value : String) (w dyTok dxTok : String)
        (dy dx : ℚ),
      strWords value = [w, dyTok, dxTok] →
      parseF64 dyTok.data = some dy →
      parseF64 dxTok.data = some dx →
      s.parseOffset value =
        ({ s with position_creator := { offsetX := dx, offsetY := dy } },
         none)) ∧
    (∀ (e : PartialEse) (s : PartialSector) (value : String),
      e.position_creator = s.position_creator →
      (e.parseOffset value).1.position_creator =
        (s.parseOffset value).1.position_creator ∧
      (e.parseOffset value).2 = (s.parseOffset value).2) ∧
    (∀ (s : PartialSector) (value : String),
      (strWords value).length ≠ 3 → (strWords value).length ≠ 5 →
      s.parseOffset value = (s, some Error.InvalidOffset)) ∧
    ((({} : PartialSector).parseOffset
        "OFFSET N010.00.00.000 E020.00.00.000 N010.30.00.000 E020.30.00.000").1.position_creator =
      { offsetX := 1/2, offsetY := 1/2 } ∧
    (({ position_creator := { offsetX := 7, offsetY := 9 } } :
        PartialSector).parseOffset
        "OFFSET N010.00.00.000 E020.00.00.000 N010.30.00.000 E020.30.00.000").1.position_creator =
      { offsetX := 1/2, offsetY := 1/2 } ∧
    ((({} : PartialEse).parseOffset "OFFSET 0.5 0.5").1.position_creator =
      ({ offsetX := 1/2, offsetY := 1/2 } : PositionCreator)) ∧
    (PositionCreator.parseOffsetF64 {}
        "OFFSET N010.00.00.000 E020.00.00.000 N010.30.00.000 E020.30.00.000").1 =
      { offsetX := 1/2, offsetY := 1/2 } ∧
    (PositionCreator.parseOffsetF64 {} "OFFSET 0.5 0.5").1 =
      ({ offsetX := 1/2, offsetY := 1/2 } : PositionCreator)) := by
  refine ⟨?_, ?_, ?_, ?_, ?_, ?_, ?_, ?_, ?_⟩
  · intro s value w lat1 lon1 lat2 lon2 p1 p2 hsplit h1 h2
    simp only [PartialSector.parseOffset, PositionCreator.parseOffset, hsplit,
      PositionCreator.tryNewFromEs, h1, h2, Except.map, List.length_cons,
      List.length_nil, List.getD_cons_zero, List.getD_cons_succ,
      PositionCreator.setOffset]
    norm_num
  · intro s value w dyTok dxTok dy dx hsplit h1 h2
    simp only [PartialSector.parseOffset, PositionCreator.parseOffset, hsplit,
      List.length_cons, List.length_nil, List.getD_cons_zero,
      List.getD_cons_succ, PositionCreator.setOffset]
    norm_num
    simp [h1, h2]
  · intro e s value h
    constructor <;>
      simp [PartialEse.parseOffset, PartialSector.parseOffset, h]
  · intro s value h3 h5
    simp [PartialSector.parseOffset, PositionCreator.parseOffset, h3, h5]
  · decide
  · decide
  · decide
  · decide
  · decide

/-- C8 witness: the two-point form applied at the spec's concrete
`P1 = (10, 20)`, `P2 = (10.5, 20.5)` tokens, and the direct form applied at
`OFFSET 0.5 0.5`, both landing on the same offset state. -/
theorem C8_witness :
    (({} : PartialSector).parseOffset
        "OFFSET N010.00.00.000 E020.00.00.000 N010.30.00.000 E020.30.00.000" =
      ({ position_creator := { offsetX := 1/2, offsetY := 1/2 } }, none)) ∧
    (({} : PartialSector).parseOffset "OFFSET 0.5 0.5" =
      ({ position_creator := { offsetX := 1/2, offsetY := 1/2 } }, none)) := by
  constructor
  · exact (C8_offset_two_point_form.1 {}
      "OFFSET N010.00.00.000 E020.00.00.000 N010.30.00.000 E020.30.00.000"
      "OFFSET" "N010.00.00.000" "E020.00.00.000" "N010.30.00.000"
      "E020.30.00.000" ⟨10, 20⟩ ⟨21/2, 41/2⟩ (by decide) (by decide)
      (by decide)).trans (by decide)
  · exact (C8_offset_two_point_form.2.1 {} "OFFSET 0.5 0.5" "OFFSET" "0.5"
      "0.5" (1/2) (1/2) (by decide) (by decide) (by decide)).trans (by decide)

/-- C9: `PartialSectorInfo::parse_line` maps its Nth invocation to the Nth
fixed metadata field — lines 1–3 store the raw text, line 4 stores the
centre-point latitude with the offset's y component added, line 5 the
centre-point longitude with the x component added (without failing even when
the coordinate does not parse), lines 6–9 store the four scalar fields and
fail `SectorInfoError` when the number does not parse, every invocation past
the 9th fails `SectorInfoError`, and the spec's §8 scenario — nine lines
parsed, a failing 10th — leaves lines 1–9 correctly populated. -/
theorem C9_sector_info_sequential_fields :
    (∀ (si : PartialSectorInfo) (v : String) (pc : PositionCreator),
      si.current_line = 0 →
      si.parseLine v pc =
        ({ si with name := some v, current_line := 1 }, none)) ∧
    (∀ (si : PartialSectorInfo) (v : String) (pc : PositionCreator),
      si.current_line = 1 →
      si.parseLine v pc =
        ({ si with default_callsign := some v, current_line := 2 }, none)) ∧
    (∀ (si : PartialSectorInfo) (v : String) (pc : PositionCreator),
      si.current_line = 2 →
      si.parseLine v pc =
        ({ si with default_airport := some v, current_line := 3 }, none)) ∧
    (∀ (si : PartialSectorInfo) (v : String) (pc : PositionCreator),
      si.current_line = 3 →
      si.parseLine v pc =
        ({ si with
            default_centre_pt_lat := (coordFromEs v).map (fun lat => lat + pc.offsetY)
            current_line := 4 }, none)) ∧
    (∀ (si : PartialSectorInfo) (v : String) (pc : PositionCreator),
      si.current_line = 4 →
      si.parseLine v pc =
        ({ si with
            default_centre_pt_lon := (coordFromEs v).map (fun lon => lon + pc.offsetX)
            current_line := 5 }, none)) ∧
    (∀ (si : PartialSectorInfo) (v : String) (pc : PositionCreator) (q : ℚ),
      si.current_line = 5 → parseF64 v.data = some q →
      si.parseLine v pc =
        ({ si with n_mi_per_deg_lat := some q, current_line := 6 }, none)) ∧
    (∀ (si : PartialSectorInfo) (v : String) (pc : PositionCreator) (q : ℚ),
      si.current_line = 6 → parseF64 v.data = some q →
      si.parseLine v pc =
        ({ si with n_mi_per_deg_lon := some q, current_line := 7 }, none)) ∧
    (∀ (si : PartialSectorInfo) (v : String) (pc : PositionCreator) (q : ℚ),
      si.current_line = 7 → parseF64 v.data = some q →
      si.parseLine v pc =
        ({ si with magnetic_variation := some q, current_line := 8 }, none)) ∧
    (∀ (si : PartialSectorInfo) (v : String) (pc : PositionCreator) (q : ℚ),
      si.current_line = 8 → parseF64 v.data = some q →
      si.parseLine v pc =
        ({ si with sector_scale := some q, current_line := 9 }, none)) ∧
    (∀ (si : PartialSectorInfo) (v : String) (pc : PositionCreator),
      5 ≤ si.current_line → si.current_line ≤ 8 → parseF64 v.data = none →
      si.parseLine v pc =
        ({ si with current_line := si.current_line + 1 },
         some Error.SectorInfoError)) ∧
    (∀ (si : PartialSectorInfo) (v : String) (pc : PositionCreator),
      9 ≤ si.current_line →
      si.parseLine v pc =
        ({ si with current_line := si.current_line + 1 },
         some Error.SectorInfoError)) ∧
    (feedSectorInfo {} {}
        ["Test Sector", "TEST_CS", "EGAA", "N010.30.00.000",
         "W006.15.00.000", "60", "59.5", "-4.5", "1.0"] =
      { name := some "Test Sector", default_callsign := some "TEST_CS",
        default_airport := some "EGAA",
        default_centre_pt_lat := some (21/2),
        default_centre_pt_lon := some (-25/4),
        n_mi_per_deg_lat := some 60, n_mi_per_deg_lon := some (119/2),
        magnetic_variation := some (-9/2), sector_scale := some 1,
        current_line := 9 } ∧
    PartialSectorInfo.parseLine
        (feedSectorInfo {} {}
          ["Test Sector", "TEST_CS", "EGAA", "N010.30.00.000",
           "W006.15.00.000", "60", "59.5", "-4.5", "1.0"]) "1.0" {} =
      ({ name := some "Test Sector", default_callsign := some "TEST_CS",
         default_airport := some "EGAA",
         default_centre_pt_lat := some (21/2),
         default_centre_pt_lon := some (-25/4),
         n_mi_per_deg_lat := some 60, n_mi_per_deg_lon := some (119/2),
         magnetic_variation := some (-9/2), sector_scale := some 1,
         current_line := 10 }, some Error.SectorInfoError)) := by
  refine ⟨?_, ?_, ?_, ?_, ?_, ?_, ?_, ?_, ?_, ?_, ?_, ?_, ?_⟩
  · intro si v pc h
    simp [PartialSectorInfo.parseLine, h]
  · intro si v pc h
    simp [PartialSectorInfo.parseLine, h]
  · intro si v pc h
    simp [PartialSectorInfo.parseLine, h]
  · intro si v pc h
    simp [PartialSectorInfo.parseLine, h]
  · intro si v pc h
    simp [PartialSectorInfo.parseLine, h]
  · intro si v pc q h hq
    simp [PartialSectorInfo.parseLine, h, hq]
  · intro si v pc q h hq
    simp [PartialSectorInfo.parseLine, h, hq]
  · intro si v pc q h hq
    simp [PartialSectorInfo.parseLine, h, hq]
  · intro si v pc q h hq
    simp [PartialSectorInfo.parseLine, h, hq]
  · intro si v pc h5 h8 hq
    simp only [PartialSectorInfo.parseLine]
    split
    all_goals first
      | rfl
      | omega
      | simp [hq]
  · intro si v pc h9
    simp only [PartialSectorInfo.parseLine]
    split
    all_goals first
      | rfl
      | omega
  · decide
  · decide

/-- C9 witness: the field-mapping theorem applied at a fresh struct (first
line), at the centre-point latitude line with a nonzero offset, at a failing
scalar line, and past the ninth line. -/
theorem C9_witness :
    PartialSectorInfo.parseLine {} "My Sector" {} =
      ({ name := some "My Sector", current_line := 1 }, none) ∧
    PartialSectorInfo.parseLine { current_line := 3 } "N010.30.00.000"
        { offsetX := 2, offsetY := 3 } =
      ({ default_centre_pt_lat := some (21/2 + 3), current_line := 4 }, none) ∧
    PartialSectorInfo.parseLine { current_line := 5 } "abc" {} =
      ({ current_line := 6 }, some Error.SectorInfoError) ∧
    PartialSectorInfo.parseLine { current_line := 9 } "anything" {} =
      ({ current_line := 10 }, some Error.SectorInfoError) := by
  refine ⟨?_, ?_, ?_, ?_⟩
  · exact (C9_sector_info_sequential_fields.1 {} "My Sector" {} rfl).trans
      (by decide)
  · exact (C9_sector_info_sequential_fields.2.2.2.1 { current_line := 3 }
      "N010.30.00.000" { offsetX := 2, offsetY := 3 } rfl).trans (by decide)
  · exact (C9_sector_info_sequential_fields.2.2.2.2.2.2.2.2.2.1
      { current_line := 5 } "abc" {} (by decide) (by decide) (by decide)).trans
      (by decide)
  · exact (C9_sector_info_sequential_fields.2.2.2.2.2.2.2.2.2.2.1
      { current_line := 9 } "anything" {} (by decide)).trans (by decide)

end SctReader
